import Mathlib

/-!
Verification of the waitlist signup service (`src/api/main.py`).

The stateful Python service is shallowly embedded: the Postgres `waitlist`
table becomes a `List Entry` (the `Store`), timestamps become `Nat`,
the Brevo HTTP API and the psycopg2 driver become explicit inductive
inputs describing the remote outcome, and every operation of the service
becomes a total Lean function returning the same data the Python code
produces (responses, raised `HTTPException`s, stored rows).  The order of
the external sync call and the database write is captured by an explicit
event trace.
-/

namespace Waitlist

/-! ## String normalization (Python `str.lower` / `str.strip` on ASCII) -/

/-- ASCII whitespace recognised by Python `str.strip` (ASCII fragment). -/
def isAsciiSpace (c : Char) : Bool :=
  c == ' ' || c == '\t' || c == '\n' || c == '\r' || c == '\x0b' || c == '\x0c'

/-- `str.lower` on a single ASCII character. -/
def pyLowerChar (c : Char) : Char :=
  if 'A' ≤ c ∧ c ≤ 'Z' then Char.ofNat (c.toNat + 32) else c

/-- `str.lower`. -/
def pyLower (s : List Char) : List Char := s.map pyLowerChar

/-- Leading-whitespace removal. -/
def trimL (s : List Char) : List Char := s.dropWhile isAsciiSpace

/-- Trailing-whitespace removal. -/
def trimR (s : List Char) : List Char := (s.reverse.dropWhile isAsciiSpace).reverse

/-- `str.strip`. -/
def pyStrip (s : List Char) : List Char := trimR (trimL s)

/-! ## Enums (`WaitlistStatus`, `BrevoSyncStatus` in `main.py`) -/

inductive WaitlistStatus where
  | pending
  | confirmed
  | invited
  | active
deriving DecidableEq, Repr

inductive BrevoSyncStatus where
  | success
  | failed
  | pending
deriving DecidableEq, Repr

/-! ## Pydantic request model `EmailSubmission` -/

structure EmailSubmission where
  email : List Char
  name : Option (List Char)
  referral_source : Option (List Char)
deriving DecidableEq, Repr

/-- Validator `email_must_be_lowercase`: `return v.lower().strip()`. -/
def email_must_be_lowercase (v : List Char) : List Char := pyStrip (pyLower v)

/-- Validator `name_must_be_clean`: `if v: return v.strip()` (falsy values,
`None` or the empty string, pass through unchanged). -/
def name_must_be_clean : Option (List Char) → Option (List Char)
  | none => none
  | some v => if v.isEmpty then some v else some (pyStrip v)

/-- Construction of a validated `EmailSubmission` from raw request fields:
Pydantic runs both validators before the endpoint sees the model. -/
def mk_email_submission (email : List Char) (name referral_source : Option (List Char)) :
    EmailSubmission :=
  { email := email_must_be_lowercase email
    name := name_must_be_clean name
    referral_source := referral_source }

/-! ## Data model: one row of the `waitlist` table -/

structure Entry where
  id : Nat
  email : List Char
  name : Option (List Char)
  referral_source : Option (List Char)
  status : WaitlistStatus
  brevo_contact_id : Option (List Char)
  brevo_sync_status : BrevoSyncStatus
  brevo_synced_at : Option Nat
  created_at : Nat
deriving DecidableEq, Repr

/-- The `waitlist` table, in insertion order. -/
abbrev Store := List Entry

/-! ## HTTP error data (`fastapi.HTTPException` and the JSON error bodies) -/

structure HTTPException where
  status_code : Nat
  detail : String
deriving DecidableEq, Repr

/-- JSON body produced by the registered exception handlers. -/
structure ErrorBody where
  success : Bool
  error : String
  status_code : Nat
deriving DecidableEq, Repr

/-- `http_exception_handler`: renders an `HTTPException` for the client. -/
def http_exception_handler (exc : HTTPException) : ErrorBody :=
  { success := false, error := exc.detail, status_code := exc.status_code }

/-- `general_exception_handler`: any unclassified exception becomes this body. -/
def general_exception_handler : ErrorBody :=
  { success := false, error := "Internal Server Error", status_code := 500 }

/-- Python `str(e)` of a FastAPI `HTTPException`: `f"{status_code}: {detail}"`. -/
def httpexception_str (e : HTTPException) : String :=
  toString e.status_code ++ ": " ++ e.detail

/-- `get_db_connection` failure translation: a `psycopg2.Error` (with its
driver code and message) or any other exception is logged and replaced by a
fixed-detail `HTTPException`; the internal text never reaches the detail. -/
inductive DbFailure where
  | pg (pgcode pgerror : String)
  | unexpected (msg : String)
deriving DecidableEq, Repr

def get_db_connection_error : DbFailure → HTTPException
  | .pg _ _ => { status_code := 500, detail := "Database operation failed" }
  | .unexpected _ => { status_code := 500, detail := "An unexpected error occurred" }

/-! ## DatabaseService -/

/-- `DatabaseService.check_email_exists`: `SELECT ... WHERE email = %s` with
`fetchone`. -/
def check_email_exists (db : Store) (email : List Char) : Option Entry :=
  db.find? (fun r => r.email = email)

/-- `DatabaseService.get_waitlist_count`: `SELECT COUNT(*) FROM waitlist`. -/
def get_waitlist_count (db : Store) : Nat := db.length

/-- The row built by the `INSERT` statement of `add_waitlist_entry`:
`status` is `pending`, `brevo_synced_at` is `now` exactly when the sync
status is `success`, `created_at` is `now`; `id` is the serial key. -/
def entry_rec (db : Store) (email : List Char)
    (name referral_source brevo_contact_id : Option (List Char))
    (brevo_sync_status : BrevoSyncStatus) (now : Nat) : Entry :=
  { id := get_waitlist_count db + 1
    email := email
    name := name
    referral_source := referral_source
    status := WaitlistStatus.pending
    brevo_contact_id := brevo_contact_id
    brevo_sync_status := brevo_sync_status
    brevo_synced_at := if brevo_sync_status = BrevoSyncStatus.success then some now else none
    created_at := now }

/-- `DatabaseService.add_waitlist_entry`: inserts the row, then reads the
position as `SELECT COUNT(*) FROM waitlist WHERE created_at <= %s`.  A
duplicate insert violates the `UNIQUE` constraint on `email` and raises
`psycopg2.IntegrityError` inside the `with get_db_connection()` body; the
generator context manager catches it at the `yield` as a `psycopg2.Error`,
rolls the transaction back and raises
`HTTPException(500, "Database operation failed")` in its place.  The
`except psycopg2.IntegrityError` branch of the Python function (which
would answer 409 "Email already registered") therefore never sees the
original exception and is unreachable: the duplicate insert surfaces as
the generic storage-failure exception, re-raised unchanged by the
`except Exception` branch; the store is unchanged. -/
def add_waitlist_entry (db : Store) (email : List Char)
    (name referral_source brevo_contact_id : Option (List Char))
    (brevo_sync_status : BrevoSyncStatus) (now : Nat) :
    Except HTTPException (Store × Entry × Nat) :=
  if (db.find? (fun r => r.email = email)).isSome then
    Except.error { status_code := 500, detail := "Database operation failed" }
  else
    let entry := entry_rec db email name referral_source brevo_contact_id brevo_sync_status now
    let db2 : Store := db ++ [entry]
    Except.ok (db2, entry,
      (db2.filter (fun r => r.created_at ≤ now)).length)

/-! ## BrevoService -/

/-- Outcome of the remote `create_contact` call, as seen by the adapter:
either a created contact id, an `ApiException` carrying HTTP status,
reason and body, or any other raised exception. -/
inductive BrevoRemote where
  | ok (contact_id : List Char)
  | apiError (stat : Nat) (reason : String) (body : List Char)
  | exn (msg : String)
deriving DecidableEq, Repr

/-- Result dictionary returned by `BrevoService.add_contact_to_list`. -/
structure BrevoResult where
  status : BrevoSyncStatus
  contact_id : Option (List Char)
  message : Option String
  error : Option String
  error_code : Option String
deriving DecidableEq, Repr

/-- Bool test `u.isPrefixOf v` on character lists. -/
def isPrefixL : List Char → List Char → Bool
  | [], _ => true
  | _ :: _, [] => false
  | a :: as, b :: bs => a == b && isPrefixL as bs

/-- Python substring test `pat in s`. -/
def hasSub (pat : List Char) : List Char → Bool
  | [] => pat.isEmpty
  | c :: t => isPrefixL pat (c :: t) || hasSub pat t

/-- The marker Brevo puts in the 400 body of a duplicate contact. -/
def contactExistsPat : List Char := "Contact already exist".data

/-- `BrevoService.add_contact_to_list`: classifies the remote outcome and
never propagates an exception.  A 400 whose body mentions
`Contact already exist` is treated as success with no contact id;
401 and 404 are classified failures; every other `ApiException` and every
unexpected exception is a failure with its own code. -/
def add_contact_to_list (email : List Char) (name referral_source : Option (List Char))
    (position : Nat) (remote : BrevoRemote) : BrevoResult :=
  match remote with
  | .ok cid =>
      { status := .success, contact_id := some cid,
        message := some "Contact added and automation triggered",
        error := none, error_code := none }
  | .apiError stat reason body =>
      if stat = 400 ∧ hasSub contactExistsPat body then
        { status := .success, contact_id := none,
          message := some "Contact already exists in Brevo",
          error := none, error_code := none }
      else if stat = 401 then
        { status := .failed, contact_id := none, message := none,
          error := some "Authentication failed",
          error_code := some "BREVO_AUTH_FAILED" }
      else if stat = 404 then
        { status := .failed, contact_id := none, message := none,
          error := some "List not found",
          error_code := some "BREVO_LIST_NOT_FOUND" }
      else
        { status := .failed, contact_id := none, message := none,
          error := some ("API error: " ++ reason),
          error_code := some "BREVO_API_ERROR" }
  | .exn msg =>
      { status := .failed, contact_id := none, message := none,
        error := some msg,
        error_code := some "BREVO_UNEXPECTED_ERROR" }

/-- Outcome of the remote `get_account` call used by `test_connection`. -/
inductive AccountRemote where
  | ok (account_email : List Char)
  | apiExn (msg : String)
  | exn (msg : String)
deriving DecidableEq, Repr

/-- Result dictionary of `BrevoService.test_connection`. -/
structure BrevoStatus where
  connected : Bool
  account_email : Option (List Char)
  error : Option String
deriving DecidableEq, Repr

/-- `BrevoService.test_connection`: catches both `ApiException` and any
other exception, returning `connected=False` with the error text. -/
def test_connection : AccountRemote → BrevoStatus
  | .ok em => { connected := true, account_email := some em, error := none }
  | .apiExn m => { connected := false, account_email := none, error := some m }
  | .exn m => { connected := false, account_email := none, error := some m }

/-! ## Waitlist responses and the orchestrator `add_to_waitlist` -/

/-- The `data` dictionary of a `WaitlistResponse` (keys that are absent in
the Python dict are `none` here). -/
structure RespData where
  email : List Char
  name : Option (List Char)
  position : Option Nat
  registered_at : Option Nat
  brevo_sync_status : Option BrevoSyncStatus
deriving DecidableEq, Repr

structure WaitlistResponse where
  success : Bool
  message : String
  data : Option RespData
  error_code : Option String
deriving DecidableEq, Repr

/-- Observable side-effect events of one submission, in order. -/
inductive Event where
  | syncCall
  | dbWrite
deriving DecidableEq, Repr

/-- `add_to_waitlist` with the read-then-write race made explicit:
`db_check` is the store snapshot seen by the duplicate pre-check and the
count, `db_write` the snapshot seen by the insert.  A sequential request
has `db_check = db_write`; a racing duplicate inserted between the two
steps is a `db_write` that already contains the email.  Returns the
resulting store, the client-visible outcome (a response, or a raised
`HTTPException`), and the event trace. -/
def add_to_waitlist_race (db_check db_write : Store) (sub : EmailSubmission)
    (remote : BrevoRemote) (now : Nat) :
    Store × Except HTTPException WaitlistResponse × List Event :=
  match check_email_exists db_check sub.email with
  | some existing =>
      (db_write,
       Except.ok
         { success := false
           message := "This email has already been registered!"
           data := some
             { email := sub.email, name := none, position := none
               registered_at := some existing.created_at, brevo_sync_status := none }
           error_code := some "EMAIL_ALREADY_EXISTS" },
       [])
  | none =>
      let brevo_result := add_contact_to_list sub.email sub.name sub.referral_source
        (get_waitlist_count db_check + 1) remote
      match add_waitlist_entry db_write sub.email sub.name sub.referral_source
          brevo_result.contact_id brevo_result.status now with
      | .error e => (db_write, Except.error e, [Event.syncCall])
      | .ok (db2, entry, position) =>
          let warning_message :=
            if brevo_result.status = BrevoSyncStatus.failed then
              " (Note: Email confirmation may be delayed)"
            else ""
          (db2,
           Except.ok
             { success := true
               message := "🎉 You\x27ve been added to the waitlist!" ++ warning_message
               data := some
                 { email := entry.email, name := entry.name, position := some position
                   registered_at := some entry.created_at
                   brevo_sync_status := some brevo_result.status }
               error_code := none },
           [Event.syncCall, Event.dbWrite])

/-- The sequential endpoint `POST /api/waitlist`: check and insert see the
same store. -/
def add_to_waitlist (db : Store) (sub : EmailSubmission) (remote : BrevoRemote) (now : Nat) :
    Store × Except HTTPException WaitlistResponse × List Event :=
  add_to_waitlist_race db db sub remote now

/-! ## Health check -/

/-- The `services.database` sub-object of the health payload. -/
structure DbServiceHealth where
  status : String
  waitlist_count : Option Nat
  error : Option String
deriving DecidableEq, Repr

structure HealthData where
  status : String
  database : DbServiceHealth
  brevo : BrevoStatus
deriving DecidableEq, Repr

/-- `health_check` endpoint: the database probe runs
`DatabaseService.get_waitlist_count`, whose connection scope
(`get_db_connection`) converts any `psycopg2.Error` or other exception
into one of the two fixed-detail `HTTPException`s before re-raising; the
exception `health_check` catches is that converted one, so the reported
`error` text is its `str` (`"500: Database operation failed"` or
`"500: An unexpected error occurred"`), never raw driver text.  The Brevo
account probe is reported exactly as `test_connection` returns it,
including the `str` of an arbitrary SDK exception.  Both failures are
caught; the composite status becomes `degraded` when either dependency is
down. -/
def health_check (db_probe : Except DbFailure Nat) (brevo_remote : AccountRemote) : HealthData :=
  let brevo_status := test_connection brevo_remote
  match db_probe with
  | .ok count =>
      { status := if brevo_status.connected then "healthy" else "degraded"
        database := { status := "healthy", waitlist_count := some count, error := none }
        brevo := brevo_status }
  | .error f =>
      { status := "degraded"
        database :=
          { status := "unhealthy"
            waitlist_count := none
            error := some (httpexception_str (get_db_connection_error f)) }
        brevo := brevo_status }

/-! ## Configuration (`Config` and `startup_event`) -/

/-- The environment values `Config` reads: `DATABASE_URL` (no default, so
`none` when unset), `BREVO_API_KEY` (default empty after quote-stripping),
`BREVO_WAITLIST_ID` (default 0), `FRONTEND_URL` (default empty). -/
structure Env where
  database_url : Option String
  brevo_api_key : String
  brevo_waitlist_id : Nat
  frontend_url : String
deriving DecidableEq, Repr

/-- `Config.ALLOWED_ORIGINS`: three hard-coded local origins plus the
`FRONTEND_URL` value. -/
def allowed_origins (env : Env) : List String :=
  ["http://localhost:5173", "http://localhost:3000", "http://127.0.0.1:5173",
   env.frontend_url]

structure ConfigValidation where
  valid : Bool
  errors : List String
  warnings : List String
deriving DecidableEq, Repr

/-- `Config.validate`: missing database URL, API key or list id are errors;
an empty origin list (after filtering empty strings) is only a warning. -/
def Config.validate (env : Env) : ConfigValidation :=
  let errors :=
    (if env.database_url.getD "" = "" then ["DATABASE_URL is not set"] else []) ++
    (if env.brevo_api_key = "" then ["BREVO_API_KEY is not set"] else []) ++
    (if env.brevo_waitlist_id = 0 then ["BREVO_WAITLIST_ID is not set or invalid"] else [])
  let origins := (allowed_origins env).filter (fun o => ¬ o = "")
  let warnings := if origins.isEmpty then ["No CORS origins configured"] else []
  { valid := errors.length = 0, errors := errors, warnings := warnings }

/-- `startup_event` raises `RuntimeError` exactly when validation fails. -/
def startup_aborts (env : Env) : Bool := !(Config.validate env).valid

/-! ## Sequential insertion helper for the position property -/

/-- Inserts a list of emails one by one with strictly increasing
timestamps `t, t+1, ...`, collecting the reported positions. -/
def insert_seq (db : Store) (emails : List (List Char)) (t : Nat) : Store × List Nat :=
  match emails with
  | [] => (db, [])
  | e :: rest =>
      match add_waitlist_entry db e none none none .pending t with
      | .error _ => (db, [])
      | .ok (db2, _, pos) =>
          let r := insert_seq db2 rest (t + 1)
          (r.1, pos :: r.2)

/-! ## Helper lemmas -/

theorem find?_append_of_none {α : Type} {p : α → Bool} {l1 : List α} (l2 : List α)
    (h : l1.find? p = none) : (l1 ++ l2).find? p = l2.find? p := by
  induction l1 with
  | nil => simp
  | cons a t ih =>
    cases hpa : p a with
    | true =>
      rw [List.find?_cons_of_pos t hpa] at h
      exact absurd h (by simp)
    | false =>
      rw [List.find?_cons_of_neg t (by simp [hpa])] at h
      rw [List.cons_append, List.find?_cons_of_neg _ (by simp [hpa])]
      exact ih h

theorem find?_none_forall {α : Type} {p : α → Bool} {l : List α}
    (h : l.find? p = none) : ∀ a ∈ l, p a = false := by
  intro a ha
  have := List.find?_eq_none.mp h a ha
  simpa using this

theorem add_waitlist_entry_of_none {db : Store} {email : List Char}
    {name referral_source brevo_contact_id : Option (List Char)}
    {bst : BrevoSyncStatus} {now : Nat}
    (h : db.find? (fun r => r.email = email) = none) :
    add_waitlist_entry db email name referral_source brevo_contact_id bst now =
      Except.ok (db ++ [entry_rec db email name referral_source brevo_contact_id bst now],
        entry_rec db email name referral_source brevo_contact_id bst now,
        ((db ++ [entry_rec db email name referral_source brevo_contact_id bst now]).filter
          (fun r => r.created_at ≤ now)).length) := by
  unfold add_waitlist_entry
  rw [h]
  rfl

theorem add_waitlist_entry_of_dup {db : Store} {email : List Char}
    {name referral_source brevo_contact_id : Option (List Char)}
    {bst : BrevoSyncStatus} {now : Nat}
    (h : (db.find? (fun r => r.email = email)).isSome = true) :
    add_waitlist_entry db email name referral_source brevo_contact_id bst now =
      Except.error { status_code := 500, detail := "Database operation failed" } := by
  unfold add_waitlist_entry
  rw [h]
  rfl

theorem add_to_waitlist_race_dup (db_check db_write : Store) (sub : EmailSubmission)
    (remote : BrevoRemote) (now : Nat) (existing : Entry)
    (h : check_email_exists db_check sub.email = some existing) :
    add_to_waitlist_race db_check db_write sub remote now =
      (db_write,
       Except.ok
         { success := false
           message := "This email has already been registered!"
           data := some
             { email := sub.email, name := none, position := none
               registered_at := some existing.created_at, brevo_sync_status := none }
           error_code := some "EMAIL_ALREADY_EXISTS" },
       []) := by
  unfold add_to_waitlist_race
  rw [h]

theorem add_to_waitlist_race_fresh (db_check db_write : Store) (sub : EmailSubmission)
    (remote : BrevoRemote) (now : Nat)
    (hc : check_email_exists db_check sub.email = none)
    (hw : db_write.find? (fun r => r.email = sub.email) = none) :
    add_to_waitlist_race db_check db_write sub remote now =
      (let brevo_result := add_contact_to_list sub.email sub.name sub.referral_source
          (get_waitlist_count db_check + 1) remote
       let entry := entry_rec db_write sub.email sub.name sub.referral_source
          brevo_result.contact_id brevo_result.status now
       (db_write ++ [entry],
        Except.ok
          { success := true
            message := "🎉 You\x27ve been added to the waitlist!" ++
              (if brevo_result.status = BrevoSyncStatus.failed then
                " (Note: Email confirmation may be delayed)" else "")
            data := some
              { email := entry.email, name := entry.name
                position := some (((db_write ++ [entry]).filter
                  (fun r => r.created_at ≤ now)).length)
                registered_at := some entry.created_at
                brevo_sync_status := some brevo_result.status }
            error_code := none },
        [Event.syncCall, Event.dbWrite])) := by
  unfold add_to_waitlist_race
  rw [hc]
  simp only [add_waitlist_entry_of_none hw]

/-! ## Claims -/

/-- C1: a submission whose normalized email already has an entry in the
store returns success=false with code EMAIL_ALREADY_EXISTS carrying the
original `created_at` of the existing entry, performs no write and records no
events; and submitting the same email twice sequentially leaves exactly
one stored row for that email, the second call changing nothing. -/
theorem claim_C1_duplicate_idempotent :
    (∀ (db : Store) (sub : EmailSubmission) (remote : BrevoRemote) (now : Nat)
        (existing : Entry),
      check_email_exists db sub.email = some existing →
      add_to_waitlist db sub remote now =
        (db,
         Except.ok
           { success := false
             message := "This email has already been registered!"
             data := some
               { email := sub.email, name := none, position := none
                 registered_at := some existing.created_at, brevo_sync_status := none }
             error_code := some "EMAIL_ALREADY_EXISTS" },
         [])) ∧
    (∀ (db : Store) (sub : EmailSubmission) (r1 r2 : BrevoRemote) (t1 t2 : Nat),
      check_email_exists db sub.email = none →
      ((add_to_waitlist db sub r1 t1).1.filter (fun r => r.email = sub.email)).length = 1 ∧
      (add_to_waitlist (add_to_waitlist db sub r1 t1).1 sub r2 t2).1 =
        (add_to_waitlist db sub r1 t1).1 ∧
      ∃ resp : WaitlistResponse,
        (add_to_waitlist (add_to_waitlist db sub r1 t1).1 sub r2 t2).2.1 = Except.ok resp ∧
        resp.success = false ∧ resp.error_code = some "EMAIL_ALREADY_EXISTS" ∧
        (add_to_waitlist (add_to_waitlist db sub r1 t1).1 sub r2 t2).2.2 = []) := by
  constructor
  · intro db sub remote now existing h
    exact add_to_waitlist_race_dup db db sub remote now existing h
  · intro db sub r1 r2 t1 t2 hc
    have hw : db.find? (fun r => r.email = sub.email) = none := hc
    have h1 := add_to_waitlist_race_fresh db db sub r1 t1 hc hw
    set bres := add_contact_to_list sub.email sub.name sub.referral_source
      (get_waitlist_count db + 1) r1 with hbres
    set E := entry_rec db sub.email sub.name sub.referral_source
      bres.contact_id bres.status t1 with hE
    have hstore : (add_to_waitlist db sub r1 t1).1 = db ++ [E] := by
      rw [show add_to_waitlist db sub r1 t1 = add_to_waitlist_race db db sub r1 t1 from rfl, h1]
    have hEemail : E.email = sub.email := rfl
    have hp : (fun (r : Entry) => decide (r.email = sub.email)) E = true := by
      simp [hEemail]
    have hfind2 : check_email_exists (db ++ [E]) sub.email = some E := by
      unfold check_email_exists
      rw [find?_append_of_none _ hw]
      exact List.find?_cons_of_pos [] hp
    refine ⟨?_, ?_, ?_⟩
    · rw [hstore, List.filter_append]
      have hnil : db.filter (fun r => r.email = sub.email) = [] := by
        rw [List.filter_eq_nil_iff]
        intro a ha
        simpa using find?_none_forall hw a ha
      rw [hnil, List.nil_append]
      simp [hp]
    · rw [hstore]
      rw [show add_to_waitlist (db ++ [E]) sub r2 t2 =
        add_to_waitlist_race (db ++ [E]) (db ++ [E]) sub r2 t2 from rfl]
      rw [add_to_waitlist_race_dup (db ++ [E]) (db ++ [E]) sub r2 t2 E hfind2]
    · rw [hstore, show add_to_waitlist (db ++ [E]) sub r2 t2 =
        add_to_waitlist_race (db ++ [E]) (db ++ [E]) sub r2 t2 from rfl,
        add_to_waitlist_race_dup (db ++ [E]) (db ++ [E]) sub r2 t2 E hfind2]
      exact ⟨_, rfl, rfl, rfl, rfl⟩

/-- Demo row and submission used by concrete witnesses. -/
def w1_entry : Entry :=
  { id := 1, email := "a@x.com".data, name := none, referral_source := none,
    status := WaitlistStatus.pending, brevo_contact_id := none,
    brevo_sync_status := BrevoSyncStatus.pending, brevo_synced_at := none,
    created_at := 3 }

def w1_sub : EmailSubmission :=
  { email := "a@x.com".data, name := none, referral_source := none }

/-- Witness for C1 at concrete inputs: a stored row for `a@x.com`, then a
second submission of the same email. -/
theorem claim_C1_witness :
    (add_to_waitlist [w1_entry] w1_sub (BrevoRemote.ok "9".data) 7 =
      ([w1_entry],
       Except.ok
         { success := false
           message := "This email has already been registered!"
           data := some
             { email := "a@x.com".data, name := none, position := none
               registered_at := some 3, brevo_sync_status := none }
           error_code := some "EMAIL_ALREADY_EXISTS" },
       [])) ∧
    ∃ resp : WaitlistResponse,
      (add_to_waitlist (add_to_waitlist [] w1_sub (BrevoRemote.ok "9".data) 7).1
        w1_sub (BrevoRemote.ok "9".data) 8).2.1 = Except.ok resp ∧
      resp.success = false ∧ resp.error_code = some "EMAIL_ALREADY_EXISTS" := by
  constructor
  · exact claim_C1_duplicate_idempotent.1 [w1_entry] w1_sub
      (BrevoRemote.ok "9".data) 7 w1_entry (by decide)
  · obtain ⟨-, -, resp, h1, h2, h3, -⟩ :=
      claim_C1_duplicate_idempotent.2 [] w1_sub
        (BrevoRemote.ok "9".data) (BrevoRemote.ok "9".data) 7 8 (by decide)
    exact ⟨resp, h1, h2, h3⟩

/-- C2 (code-bug evidence): at the racing-duplicate input the insert hits
the storage uniqueness violation, get_db_connection converts the
`psycopg2.IntegrityError` into the generic
`HTTPException(500, "Database operation failed")` before the dead
`except psycopg2.IntegrityError` handler could classify it, and the
client-visible body is exactly the generic storage-failure body — equal to
the body of any other database failure and carrying no
`EMAIL_ALREADY_EXISTS` code; no write survives, the sync already ran. -/
theorem claim_C2_race_generic_failure :
    add_to_waitlist_race [] [w1_entry] w1_sub (BrevoRemote.ok "9".data) 7 =
      ([w1_entry],
       Except.error { status_code := 500, detail := "Database operation failed" },
       [Event.syncCall]) ∧
    http_exception_handler { status_code := 500, detail := "Database operation failed" } =
      { success := false, error := "Database operation failed", status_code := 500 } ∧
    http_exception_handler { status_code := 500, detail := "Database operation failed" } =
      http_exception_handler (get_db_connection_error (DbFailure.pg "23505"
        "duplicate key value violates unique constraint")) ∧
    (http_exception_handler
      { status_code := 500, detail := "Database operation failed" }).error ≠
      "EMAIL_ALREADY_EXISTS" := by
  exact ⟨rfl, rfl, rfl, by decide⟩

/-- C3: for a fresh email, the sync call happens before the store write
(the event trace is `[syncCall, dbWrite]`), the write happens for every
sync outcome and embeds the reported sync status; when the sync failed the
row still carries `brevo_sync_status=failed` and the response still has
`success=true` with the degraded-sync warning appended to the message. -/
theorem claim_C3_sync_before_write_not_blocking :
    ∀ (db : Store) (sub : EmailSubmission) (remote : BrevoRemote) (now : Nat),
      check_email_exists db sub.email = none →
      (add_to_waitlist db sub remote now).2.2 = [Event.syncCall, Event.dbWrite] ∧
      (∃ entry : Entry, (add_to_waitlist db sub remote now).1 = db ++ [entry] ∧
        entry.email = sub.email ∧
        entry.brevo_sync_status = (add_contact_to_list sub.email sub.name sub.referral_source
          (get_waitlist_count db + 1) remote).status) ∧
      (∃ resp : WaitlistResponse, (add_to_waitlist db sub remote now).2.1 = Except.ok resp ∧
        resp.success = true) ∧
      ((add_contact_to_list sub.email sub.name sub.referral_source
          (get_waitlist_count db + 1) remote).status = BrevoSyncStatus.failed →
        ∃ entry resp, (add_to_waitlist db sub remote now).1 = db ++ [entry] ∧
          entry.brevo_sync_status = BrevoSyncStatus.failed ∧
          (add_to_waitlist db sub remote now).2.1 = Except.ok resp ∧
          resp.success = true ∧
          resp.message =
            "🎉 You\x27ve been added to the waitlist! (Note: Email confirmation may be delayed)") := by
  intro db sub remote now hc
  have hw : db.find? (fun r => r.email = sub.email) = none := hc
  have h1 := add_to_waitlist_race_fresh db db sub remote now hc hw
  rw [show add_to_waitlist db sub remote now = add_to_waitlist_race db db sub remote now from rfl,
    h1]
  refine ⟨rfl, ⟨_, rfl, rfl, rfl⟩, ⟨_, rfl, rfl⟩, ?_⟩
  intro hfail
  refine ⟨_, _, rfl, hfail, rfl, rfl, ?_⟩
  simp only [hfail, if_pos]
  rfl

/-- Witness for C3 at concrete inputs: a failing (401) sync. -/
theorem claim_C3_witness :
    (add_to_waitlist [] w1_sub (BrevoRemote.apiError 401 "Unauthorized" []) 5).2.2 =
      [Event.syncCall, Event.dbWrite] ∧
    ∃ entry resp,
      (add_to_waitlist [] w1_sub (BrevoRemote.apiError 401 "Unauthorized" []) 5).1 =
        [] ++ [entry] ∧
      entry.brevo_sync_status = BrevoSyncStatus.failed ∧
      (add_to_waitlist [] w1_sub (BrevoRemote.apiError 401 "Unauthorized" []) 5).2.1 =
        Except.ok resp ∧
      resp.success = true ∧
      resp.message =
        "🎉 You\x27ve been added to the waitlist! (Note: Email confirmation may be delayed)" := by
  obtain ⟨h1, -, -, h4⟩ := claim_C3_sync_before_write_not_blocking []
    w1_sub (BrevoRemote.apiError 401 "Unauthorized" []) 5 (by decide)
  exact ⟨h1, h4 (by decide)⟩

/-- C4 counterexample: the adapter classifies a 401 as `BREVO_AUTH_FAILED`,
a 404 as `BREVO_LIST_NOT_FOUND`, and splits the remaining failures into
`BREVO_API_ERROR` (other API errors) and `BREVO_UNEXPECTED_ERROR`
(transport or unexpected exceptions) — none of which equals the codes
`AUTH_FAILED`, `LIST_NOT_FOUND` or the single code `UNEXPECTED` named by
the claim. -/
theorem claim_C4_counterexample :
    (add_contact_to_list "a@x.com".data none none 1
      (BrevoRemote.apiError 401 "Unauthorized" [])).error_code = some "BREVO_AUTH_FAILED" ∧
    (some "BREVO_AUTH_FAILED" : Option String) ≠ some "AUTH_FAILED" ∧
    (add_contact_to_list "a@x.com".data none none 1
      (BrevoRemote.apiError 404 "Not Found" [])).error_code = some "BREVO_LIST_NOT_FOUND" ∧
    (some "BREVO_LIST_NOT_FOUND" : Option String) ≠ some "LIST_NOT_FOUND" ∧
    (add_contact_to_list "a@x.com".data none none 1
      (BrevoRemote.apiError 500 "Server Error" [])).error_code = some "BREVO_API_ERROR" ∧
    (add_contact_to_list "a@x.com".data none none 1
      (BrevoRemote.exn "boom")).error_code = some "BREVO_UNEXPECTED_ERROR" ∧
    (some "BREVO_API_ERROR" : Option String) ≠ some "UNEXPECTED" ∧
    (some "BREVO_UNEXPECTED_ERROR" : Option String) ≠ some "UNEXPECTED" := by
  exact ⟨rfl, by decide, rfl, by decide, rfl, rfl, by decide, by decide⟩

/-- C4 (amended): the adapter is a total function (no exception reaches the
caller) classifying every remote outcome: created contact → success with
the contact id; 400 with a `Contact already exist` body → success with no
contact id; 401 → failed with `BREVO_AUTH_FAILED`; 404 → failed with
`BREVO_LIST_NOT_FOUND`; any other API error → failed with
`BREVO_API_ERROR`; any unexpected exception → failed with
`BREVO_UNEXPECTED_ERROR`. -/
theorem claim_C4_amended :
    ∀ (email : List Char) (name referral_source : Option (List Char)) (position : Nat)
      (remote : BrevoRemote),
      ((add_contact_to_list email name referral_source position remote).status =
          BrevoSyncStatus.success ∨
       (add_contact_to_list email name referral_source position remote).status =
          BrevoSyncStatus.failed) ∧
      (∀ cid, remote = BrevoRemote.ok cid →
        add_contact_to_list email name referral_source position remote =
          { status := .success, contact_id := some cid,
            message := some "Contact added and automation triggered",
            error := none, error_code := none }) ∧
      (∀ reason body, remote = BrevoRemote.apiError 400 reason body →
        hasSub contactExistsPat body = true →
        add_contact_to_list email name referral_source position remote =
          { status := .success, contact_id := none,
            message := some "Contact already exists in Brevo",
            error := none, error_code := none }) ∧
      (∀ reason body, remote = BrevoRemote.apiError 401 reason body →
        add_contact_to_list email name referral_source position remote =
          { status := .failed, contact_id := none, message := none,
            error := some "Authentication failed",
            error_code := some "BREVO_AUTH_FAILED" }) ∧
      (∀ reason body, remote = BrevoRemote.apiError 404 reason body →
        add_contact_to_list email name referral_source position remote =
          { status := .failed, contact_id := none, message := none,
            error := some "List not found",
            error_code := some "BREVO_LIST_NOT_FOUND" }) ∧
      (∀ stat reason body, remote = BrevoRemote.apiError stat reason body →
        ¬(stat = 400 ∧ hasSub contactExistsPat body = true) → stat ≠ 401 → stat ≠ 404 →
        add_contact_to_list email name referral_source position remote =
          { status := .failed, contact_id := none, message := none,
            error := some ("API error: " ++ reason),
            error_code := some "BREVO_API_ERROR" }) ∧
      (∀ msg, remote = BrevoRemote.exn msg →
        add_contact_to_list email name referral_source position remote =
          { status := .failed, contact_id := none, message := none,
            error := some msg,
            error_code := some "BREVO_UNEXPECTED_ERROR" }) := by
  intro email name referral_source position remote
  refine ⟨?_, ?_, ?_, ?_, ?_, ?_, ?_⟩
  · cases remote with
    | ok cid => left; rfl
    | apiError stat reason body =>
      simp only [add_contact_to_list]
      by_cases h1 : stat = 400 ∧ hasSub contactExistsPat body = true
      · rw [if_pos h1]; left; rfl
      · rw [if_neg h1]
        by_cases h2 : stat = 401
        · rw [if_pos h2]; right; rfl
        · rw [if_neg h2]
          by_cases h3 : stat = 404
          · rw [if_pos h3]; right; rfl
          · rw [if_neg h3]; right; rfl
    | exn msg => right; rfl
  · intro cid h; subst h; rfl
  · intro reason body h hsub; subst h
    simp [add_contact_to_list, hsub]
  · intro reason body h; subst h
    simp [add_contact_to_list]
  · intro reason body h; subst h
    simp [add_contact_to_list]
  · intro stat reason body h hn1 hn2 hn3; subst h
    simp only [add_contact_to_list]
    rw [if_neg hn1, if_neg hn2, if_neg hn3]
  · intro msg h; subst h; rfl

/-- Witness for C4 (amended): concrete 401 and duplicate-contact inputs. -/
theorem claim_C4_witness :
    add_contact_to_list "a@x.com".data none none 1
        (BrevoRemote.apiError 401 "Unauthorized" []) =
      { status := .failed, contact_id := none, message := none,
        error := some "Authentication failed",
        error_code := some "BREVO_AUTH_FAILED" } ∧
    add_contact_to_list "a@x.com".data none none 1
        (BrevoRemote.apiError 400 "Bad Request" "Contact already exist".data) =
      { status := .success, contact_id := none,
        message := some "Contact already exists in Brevo",
        error := none, error_code := none } := by
  obtain ⟨-, -, -, h4, -, -, -⟩ := claim_C4_amended "a@x.com".data none none 1
    (BrevoRemote.apiError 401 "Unauthorized" [])
  obtain ⟨-, -, h3b, -, -, -, -⟩ := claim_C4_amended "a@x.com".data none none 1
    (BrevoRemote.apiError 400 "Bad Request" "Contact already exist".data)
  exact ⟨h4 "Unauthorized" [] rfl, h3b "Bad Request" "Contact already exist".data rfl (by decide)⟩

/-- Every row of `db ++ [entry]` passes the `created_at ≤ now` filter when
the old rows are bounded by `now` and the new row is stamped `now`. -/
theorem filter_le_append_all {db : Store} {now : Nat} (entry : Entry)
    (h : ∀ r ∈ db, r.created_at ≤ now) (he : entry.created_at ≤ now) :
    ((db ++ [entry]).filter (fun r => r.created_at ≤ now)).length = db.length + 1 := by
  have hall : ∀ a ∈ db ++ [entry], (fun (r : Entry) => decide (r.created_at ≤ now)) a = true := by
    intro a ha
    rcases List.mem_append.mp ha with h1 | h1
    · simpa using h a h1
    · simp only [List.mem_singleton] at h1
      subst h1
      simpa using he
  rw [List.filter_eq_self.mpr hall, List.length_append]
  rfl

theorem find?_singleton_of_neg {α : Type} {p : α → Bool} {a : α} (h : p a = false) :
    [a].find? p = none := by
  rw [List.find?_cons_of_neg _ (by simp [h])]
  rfl

/-- Sequentially inserting fresh, pairwise-distinct emails with strictly
increasing timestamps reports consecutive positions starting after the
current table size. -/
theorem insert_seq_positions :
    ∀ (emails : List (List Char)) (db : Store) (t : Nat),
      emails.Nodup →
      (∀ e ∈ emails, db.find? (fun r => r.email = e) = none) →
      (∀ r ∈ db, r.created_at < t) →
      (insert_seq db emails t).2 = List.range' (db.length + 1) emails.length := by
  intro emails
  induction emails with
  | nil => intro db t _ _ _; rfl
  | cons e rest ih =>
    intro db t hnd hfresh hlt
    have hfe : db.find? (fun r => r.email = e) = none := hfresh e (by simp)
    unfold insert_seq
    simp only [add_waitlist_entry_of_none hfe]
    set E := entry_rec db e none none none BrevoSyncStatus.pending t with hE
    have hpos : ((db ++ [E]).filter (fun r => r.created_at ≤ t)).length = db.length + 1 :=
      filter_le_append_all E (fun r hr => Nat.le_of_lt (hlt r hr)) (Nat.le_refl t)
    have hrec : (insert_seq (db ++ [E]) rest (t + 1)).2 =
        List.range' ((db ++ [E]).length + 1) rest.length := by
      apply ih
      · exact (List.nodup_cons.mp hnd).2
      · intro e2 he2
        rw [find?_append_of_none _ (hfresh e2 (by simp [he2]))]
        apply find?_singleton_of_neg
        have hne : ¬ e = e2 := fun hq => (List.nodup_cons.mp hnd).1 (hq ▸ he2)
        simp [hE, entry_rec, hne]
      · intro r hr
        rcases List.mem_append.mp hr with h1 | h1
        · exact Nat.lt_trans (hlt r h1) (Nat.lt_succ_self t)
        · simp only [List.mem_singleton] at h1
          subst h1
          exact Nat.lt_succ_self t
    rw [hpos, hrec, List.length_append]
    rfl

/-- C5: the position returned by the insert is the count of stored rows
whose `created_at` is at most the `created_at` of the new entry; consequently
inserting N pairwise-distinct emails in sequence with strictly increasing
timestamps into an empty store reports positions 1..N in order. -/
theorem claim_C5_position_count :
    (∀ (db : Store) (email : List Char)
        (name referral_source brevo_contact_id : Option (List Char))
        (bst : BrevoSyncStatus) (now : Nat) (db2 : Store) (entry : Entry) (pos : Nat),
      add_waitlist_entry db email name referral_source brevo_contact_id bst now =
        Except.ok (db2, entry, pos) →
      pos = (db2.filter (fun r => r.created_at ≤ entry.created_at)).length) ∧
    (∀ emails : List (List Char), emails.Nodup →
      (insert_seq [] emails 0).2 = List.range' 1 emails.length) := by
  constructor
  · intro db email name rs cid bst now db2 entry pos h
    by_cases hw : (db.find? (fun r => r.email = email)).isSome
    · rw [add_waitlist_entry_of_dup hw] at h
      exact absurd h (by simp)
    · have hw2 : db.find? (fun r => r.email = email) = none := by
        cases hq : db.find? (fun r => r.email = email) with
        | none => rfl
        | some v => rw [hq] at hw; exact absurd rfl hw
      rw [add_waitlist_entry_of_none hw2] at h
      simp only [Except.ok.injEq, Prod.mk.injEq] at h
      obtain ⟨h1, h2, h3⟩ := h
      subst h1; subst h2; subst h3
      rfl
  · intro emails hnd
    exact insert_seq_positions emails [] 0 hnd (fun e he => rfl) (by intro r hr; simp at hr)

/-- Witness for C5: one concrete insert gives position 1 as the count of
rows at or before its timestamp, and three distinct emails give [1, 2, 3]. -/
theorem claim_C5_witness :
    1 = ((([] : Store) ++ [entry_rec [] "a@x.com".data none none none BrevoSyncStatus.pending 5]).filter
        (fun r => r.created_at ≤
          (entry_rec [] "a@x.com".data none none none BrevoSyncStatus.pending 5).created_at)).length ∧
    (insert_seq [] ["a@x.com".data, "b@x.com".data, "c@x.com".data] 0).2 = [1, 2, 3] := by
  constructor
  · exact claim_C5_position_count.1 [] "a@x.com".data none none none BrevoSyncStatus.pending 5
      ([] ++ [entry_rec [] "a@x.com".data none none none BrevoSyncStatus.pending 5])
      (entry_rec [] "a@x.com".data none none none BrevoSyncStatus.pending 5) 1 rfl
  · rw [claim_C5_position_count.2 ["a@x.com".data, "b@x.com".data, "c@x.com".data] (by decide)]
    rfl

theorem dropWhile_append_of_all {p : Char → Bool} {a : List Char} (x : List Char)
    (h : ∀ c ∈ a, p c = true) : (a ++ x).dropWhile p = x.dropWhile p := by
  induction a with
  | nil => rfl
  | cons c t ih =>
    have hc : p c = true := h c (by simp)
    rw [List.cons_append, List.dropWhile_cons, if_pos hc]
    exact ih (fun d hd => h d (by simp [hd]))

theorem dropWhile_nil_of_all {p : Char → Bool} {a : List Char}
    (h : ∀ c ∈ a, p c = true) : a.dropWhile p = [] := by
  simpa using dropWhile_append_of_all [] h

theorem dropWhile_append_split (p : Char → Bool) (x b : List Char) :
    (x ++ b).dropWhile p =
      if x.dropWhile p = [] then b.dropWhile p else x.dropWhile p ++ b := by
  induction x with
  | nil => simp
  | cons c t ih =>
    by_cases hc : p c = true
    · simp [List.dropWhile_cons, hc, ih]
    · have hc2 : p c = false := by simpa using hc
      simp [List.dropWhile_cons, hc2]

theorem trimR_append_of_all {b : List Char} (y : List Char)
    (h : ∀ c ∈ b, isAsciiSpace c = true) : trimR (y ++ b) = trimR y := by
  unfold trimR
  rw [List.reverse_append,
    dropWhile_append_of_all _ (fun c hc => h c (List.mem_reverse.mp hc))]

theorem pyStrip_sandwich {ws1 ws2 : List Char} (x : List Char)
    (h1 : ∀ c ∈ ws1, isAsciiSpace c = true) (h2 : ∀ c ∈ ws2, isAsciiSpace c = true) :
    pyStrip (ws1 ++ x ++ ws2) = pyStrip x := by
  unfold pyStrip trimL
  rw [List.append_assoc, dropWhile_append_of_all _ h1, dropWhile_append_split]
  by_cases hx : x.dropWhile isAsciiSpace = []
  · rw [if_pos hx, dropWhile_nil_of_all h2, hx]
  · rw [if_neg hx]
    exact trimR_append_of_all _ h2

theorem pyLowerChar_space {c : Char} (h : isAsciiSpace c = true) : pyLowerChar c = c := by
  unfold isAsciiSpace at h
  simp only [Bool.or_eq_true, beq_iff_eq] at h
  rcases h with ((((h | h) | h) | h) | h) | h <;> subst h <;> decide

theorem pyLower_space {a : List Char} (h : ∀ c ∈ a, isAsciiSpace c = true) :
    ∀ c ∈ pyLower a, isAsciiSpace c = true := by
  intro c hc
  unfold pyLower at hc
  rw [List.mem_map] at hc
  obtain ⟨d, hd, hcd⟩ := hc
  rw [← hcd, pyLowerChar_space (h d hd)]
  exact h d hd

/-- Normalization absorbs surrounding whitespace and case changes. -/
theorem email_norm_sandwich {ws1 ws2 : List Char} (s t : List Char)
    (h1 : ∀ c ∈ ws1, isAsciiSpace c = true) (h2 : ∀ c ∈ ws2, isAsciiSpace c = true)
    (hlow : pyLower t = pyLower s) :
    email_must_be_lowercase (ws1 ++ t ++ ws2) = email_must_be_lowercase s := by
  unfold email_must_be_lowercase
  have hsplit : pyLower (ws1 ++ t ++ ws2) = pyLower ws1 ++ pyLower t ++ pyLower ws2 := by
    unfold pyLower
    rw [List.map_append, List.map_append]
  rw [hsplit, hlow, pyStrip_sandwich _ (pyLower_space h1) (pyLower_space h2)]

/-- A second submission whose normalized email equals the first one is
classified as a duplicate and leaves the store unchanged. -/
theorem second_submission_dup (db : Store) (sub1 sub2 : EmailSubmission)
    (r1 r2 : BrevoRemote) (t1 t2 : Nat)
    (heq : sub2.email = sub1.email)
    (hc : check_email_exists db sub1.email = none) :
    ∃ resp : WaitlistResponse,
      (add_to_waitlist (add_to_waitlist db sub1 r1 t1).1 sub2 r2 t2).2.1 = Except.ok resp ∧
      resp.success = false ∧ resp.error_code = some "EMAIL_ALREADY_EXISTS" ∧
      (add_to_waitlist (add_to_waitlist db sub1 r1 t1).1 sub2 r2 t2).1 =
        (add_to_waitlist db sub1 r1 t1).1 := by
  have hw : db.find? (fun r => r.email = sub1.email) = none := hc
  have h1 := add_to_waitlist_race_fresh db db sub1 r1 t1 hc hw
  set bres := add_contact_to_list sub1.email sub1.name sub1.referral_source
    (get_waitlist_count db + 1) r1 with hbres
  set E := entry_rec db sub1.email sub1.name sub1.referral_source
    bres.contact_id bres.status t1 with hE
  have hstore : (add_to_waitlist db sub1 r1 t1).1 = db ++ [E] := by
    rw [show add_to_waitlist db sub1 r1 t1 = add_to_waitlist_race db db sub1 r1 t1 from rfl, h1]
  have hp : (fun (r : Entry) => decide (r.email = sub2.email)) E = true := by
    have hEemail : E.email = sub2.email := by rw [heq]; rfl
    simp [hEemail]
  have hw2 : db.find? (fun r => r.email = sub2.email) = none := by
    rw [heq]; exact hw
  have hfind2 : check_email_exists (db ++ [E]) sub2.email = some E := by
    unfold check_email_exists
    rw [find?_append_of_none _ hw2]
    exact List.find?_cons_of_pos [] hp
  rw [hstore, show add_to_waitlist (db ++ [E]) sub2 r2 t2 =
      add_to_waitlist_race (db ++ [E]) (db ++ [E]) sub2 r2 t2 from rfl,
    add_to_waitlist_race_dup (db ++ [E]) (db ++ [E]) sub2 r2 t2 E hfind2]
  exact ⟨_, rfl, rfl, rfl, rfl⟩

/-- C6: normalization (lower-case then strip) identifies emails differing
only in letter case or leading/trailing whitespace, and a submission whose
normalized email equals that of an already-submitted one is classified as
a duplicate with code EMAIL_ALREADY_EXISTS. -/
theorem claim_C6_case_insensitive_identity :
    (∀ (s t ws1 ws2 : List Char),
      (∀ c ∈ ws1, isAsciiSpace c = true) → (∀ c ∈ ws2, isAsciiSpace c = true) →
      pyLower t = pyLower s →
      email_must_be_lowercase (ws1 ++ t ++ ws2) = email_must_be_lowercase s) ∧
    (∀ (db : Store) (raw1 raw2 : List Char) (n1 n2 rs1 rs2 : Option (List Char))
        (r1 r2 : BrevoRemote) (t1 t2 : Nat),
      email_must_be_lowercase raw2 = email_must_be_lowercase raw1 →
      check_email_exists db (email_must_be_lowercase raw1) = none →
      ∃ resp : WaitlistResponse,
        (add_to_waitlist (add_to_waitlist db (mk_email_submission raw1 n1 rs1) r1 t1).1
          (mk_email_submission raw2 n2 rs2) r2 t2).2.1 = Except.ok resp ∧
        resp.success = false ∧ resp.error_code = some "EMAIL_ALREADY_EXISTS") := by
  constructor
  · intro s t ws1 ws2 h1 h2 hlow
    exact email_norm_sandwich s t h1 h2 hlow
  · intro db raw1 raw2 n1 n2 rs1 rs2 r1 r2 t1 t2 heq hc
    obtain ⟨resp, ha, hb, hcx, -⟩ := second_submission_dup db
      (mk_email_submission raw1 n1 rs1) (mk_email_submission raw2 n2 rs2) r1 r2 t1 t2 heq hc
    exact ⟨resp, ha, hb, hcx⟩

/-- Witness for C6: `" A@X.com "` normalizes like `"a@x.com"`, and
submitting `"A@x.com"` after `"a@x.com"` is rejected as a duplicate. -/
theorem claim_C6_witness :
    email_must_be_lowercase (" ".data ++ "A@X.com".data ++ " ".data) =
      email_must_be_lowercase "a@x.com".data ∧
    ∃ resp : WaitlistResponse,
      (add_to_waitlist (add_to_waitlist [] (mk_email_submission "a@x.com".data none none)
          (BrevoRemote.ok "9".data) 1).1
        (mk_email_submission "A@x.com".data none none) (BrevoRemote.ok "9".data) 2).2.1 =
        Except.ok resp ∧
      resp.success = false ∧ resp.error_code = some "EMAIL_ALREADY_EXISTS" := by
  constructor
  · exact claim_C6_case_insensitive_identity.1 "a@x.com".data "A@X.com".data
      " ".data " ".data (by decide) (by decide) (by decide)
  · exact claim_C6_case_insensitive_identity.2 [] "a@x.com".data "A@x.com".data
      none none none none (BrevoRemote.ok "9".data) (BrevoRemote.ok "9".data) 1 2
      (by decide) (by decide)

/-- C7: the health check is a total function (every dependency failure is
caught and reported, none is re-raised); its composite status is
`degraded` exactly when the database probe failed or the Brevo probe is
not connected, and a failed database probe is reported as an `unhealthy`
database sub-status with composite status `degraded`. -/
theorem claim_C7_health_degradation :
    ∀ (db_probe : Except DbFailure Nat) (brevo_remote : AccountRemote),
      ((health_check db_probe brevo_remote).status = "degraded" ↔
        ((∃ f, db_probe = Except.error f) ∨
          (test_connection brevo_remote).connected = false)) ∧
      (∀ f, db_probe = Except.error f →
        (health_check db_probe brevo_remote).database.status = "unhealthy" ∧
        (health_check db_probe brevo_remote).database.error =
          some (httpexception_str (get_db_connection_error f)) ∧
        (health_check db_probe brevo_remote).status = "degraded") := by
  intro db_probe brevo_remote
  constructor
  · cases db_probe with
    | error f =>
      exact ⟨fun h => Or.inl ⟨f, rfl⟩, fun h => rfl⟩
    | ok n =>
      cases hb : (test_connection brevo_remote).connected with
      | true =>
        have hs : (health_check (Except.ok n) brevo_remote).status = "healthy" := by
          simp [health_check, hb]
        rw [hs]
        constructor
        · intro h
          exact absurd h (by decide)
        · rintro (⟨e, he⟩ | hcf)
          · exact absurd he (by simp)
          · exact absurd hcf (by decide)
      | false =>
        have hs : (health_check (Except.ok n) brevo_remote).status = "degraded" := by
          simp [health_check, hb]
        rw [hs]
        exact ⟨fun h => Or.inr rfl, fun h => rfl⟩
  · intro f hf
    subst hf
    exact ⟨rfl, rfl, rfl⟩

/-- Witness for C7: an unreachable store yields a degraded composite status
with an unhealthy database sub-status. -/
theorem claim_C7_witness :
    (health_check (Except.error (DbFailure.pg "08001" "could not connect to server"))
      (AccountRemote.ok "acct@x.com".data)).database.status = "unhealthy" ∧
    (health_check (Except.error (DbFailure.pg "08001" "could not connect to server"))
      (AccountRemote.ok "acct@x.com".data)).status = "degraded" := by
  obtain ⟨h1, h2, h3⟩ := (claim_C7_health_degradation
    (Except.error (DbFailure.pg "08001" "could not connect to server"))
    (AccountRemote.ok "acct@x.com".data)).2
    (DbFailure.pg "08001" "could not connect to server") rfl
  exact ⟨h1, h3⟩

/-- C8 counterexample: the health endpoint embeds the text of the Brevo
probe exception (`str(e)` kept by `test_connection`) in its client-visible
body, so two runs that differ only in that internal exception text produce
different bodies, and the raw text itself appears in the response. -/
theorem claim_C8_counterexample :
    health_check (Except.ok 5)
        (AccountRemote.exn "Max retries exceeded with url: /v3/account") ≠
      health_check (Except.ok 5)
        (AccountRemote.exn "Failed to establish a new connection") ∧
    (health_check (Except.ok 5)
        (AccountRemote.exn "Max retries exceeded with url: /v3/account")).brevo.error =
      some "Max retries exceeded with url: /v3/account" := by
  exact ⟨by decide, rfl⟩

/-- C8 (amended): every handler-produced error body carries success=false;
database failures surface with the fixed generic details
"Database operation failed" / "An unexpected error occurred" independent
of the internal driver text — on the submission path, and equally in the
health database sub-status, whose error text is the constant `str` of the
exception already converted by `get_db_connection`, so the health body is
invariant under the driver text; but the health endpoint embeds the Brevo
probe exception text, so its body does vary with that internal text. -/
theorem claim_C8_generic_errors :
    (∀ f : DbFailure,
      (http_exception_handler (get_db_connection_error f)).success = false ∧
      ((http_exception_handler (get_db_connection_error f)).error =
          "Database operation failed" ∨
       (http_exception_handler (get_db_connection_error f)).error =
          "An unexpected error occurred")) ∧
    (∀ c1 e1 c2 e2 : String,
      http_exception_handler (get_db_connection_error (DbFailure.pg c1 e1)) =
        http_exception_handler (get_db_connection_error (DbFailure.pg c2 e2))) ∧
    (∀ m1 m2 : String,
      http_exception_handler (get_db_connection_error (DbFailure.unexpected m1)) =
        http_exception_handler (get_db_connection_error (DbFailure.unexpected m2))) ∧
    (∀ exc : HTTPException, (http_exception_handler exc).success = false) ∧
    general_exception_handler.success = false ∧
    (∀ (c1 e1 c2 e2 : String) (br : AccountRemote),
      health_check (Except.error (DbFailure.pg c1 e1)) br =
        health_check (Except.error (DbFailure.pg c2 e2)) br) ∧
    (∀ (m1 m2 : String) (br : AccountRemote),
      health_check (Except.error (DbFailure.unexpected m1)) br =
        health_check (Except.error (DbFailure.unexpected m2)) br) ∧
    (∃ m1 m2 : String, ¬ m1 = m2 ∧
      health_check (Except.ok 0) (AccountRemote.exn m1) ≠
        health_check (Except.ok 0) (AccountRemote.exn m2)) := by
  refine ⟨?_, ?_, ?_, fun exc => rfl, rfl, fun c1 e1 c2 e2 br => rfl,
    fun m1 m2 br => rfl, "a", "b", by decide, by decide⟩
  · intro f
    cases f with
    | pg c e => exact ⟨rfl, Or.inl rfl⟩
    | unexpected m => exact ⟨rfl, Or.inr rfl⟩
  · intro c1 e1 c2 e2; rfl
  · intro m1 m2; rfl

/-- Environment with every value present except the FRONTEND_URL origin. -/
def w9_env : Env :=
  { database_url := some "postgresql://db", brevo_api_key := "key",
    brevo_waitlist_id := 7, frontend_url := "" }

/-- C9 counterexample: with the database URL, API key and list id present
but the FRONTEND_URL origin value absent (empty), validation passes with
no warnings and startup proceeds — absence of the allowed-origin value
does not abort startup. -/
theorem claim_C9_counterexample :
    startup_aborts w9_env = false ∧
    (Config.validate w9_env).valid = true ∧
    (Config.validate w9_env).warnings = [] := by
  exact ⟨rfl, rfl, rfl⟩

/-- C9 (amended): startup aborts exactly when the database connection
string, the external-API key, or the target-list identifier is missing;
the allowed-origin value is not required — it never influences validity,
and an empty origin list would only produce a warning. -/
theorem claim_C9_fail_fast :
    ∀ env : Env,
      (startup_aborts env = true ↔
        (env.database_url.getD "" = "" ∨ env.brevo_api_key = "" ∨
          env.brevo_waitlist_id = 0)) ∧
      ((Config.validate env).valid = false ↔ (Config.validate env).errors ≠ []) ∧
      (∀ url : String,
        startup_aborts { env with frontend_url := url } = startup_aborts env) := by
  intro env
  by_cases h1 : env.database_url.getD "" = "" <;>
    by_cases h2 : env.brevo_api_key = "" <;>
      by_cases h3 : env.brevo_waitlist_id = 0 <;>
        simp [startup_aborts, Config.validate, h1, h2, h3]

/-- C10: a remote contact-already-exists outcome (400 whose body mentions
the duplicate marker) is classified success with no contact id, and the
entry then stored carries `brevo_sync_status=success`, a null
`brevo_contact_id`, and a non-null `brevo_synced_at` — a success sync
status does not imply a contact id. -/
theorem claim_C10_already_exists_success_null_id :
    ∀ (db : Store) (sub : EmailSubmission) (reason : String) (body : List Char) (now : Nat),
      check_email_exists db sub.email = none →
      hasSub contactExistsPat body = true →
      (add_contact_to_list sub.email sub.name sub.referral_source
          (get_waitlist_count db + 1) (BrevoRemote.apiError 400 reason body)).status =
        BrevoSyncStatus.success ∧
      (add_contact_to_list sub.email sub.name sub.referral_source
          (get_waitlist_count db + 1) (BrevoRemote.apiError 400 reason body)).contact_id =
        none ∧
      ∃ entry : Entry,
        (add_to_waitlist db sub (BrevoRemote.apiError 400 reason body) now).1 =
          db ++ [entry] ∧
        entry.brevo_sync_status = BrevoSyncStatus.success ∧
        entry.brevo_contact_id = none ∧
        entry.brevo_synced_at = some now := by
  intro db sub reason body now hc hsub
  have hclass : add_contact_to_list sub.email sub.name sub.referral_source
      (get_waitlist_count db + 1) (BrevoRemote.apiError 400 reason body) =
      { status := .success, contact_id := none,
        message := some "Contact already exists in Brevo",
        error := none, error_code := none } := by
    simp [add_contact_to_list, hsub]
  have hw : db.find? (fun r => r.email = sub.email) = none := hc
  have h1 := add_to_waitlist_race_fresh db db sub
    (BrevoRemote.apiError 400 reason body) now hc hw
  refine ⟨by rw [hclass], by rw [hclass],
    entry_rec db sub.email sub.name sub.referral_source none BrevoSyncStatus.success now,
    ?_, rfl, rfl, rfl⟩
  rw [show add_to_waitlist db sub (BrevoRemote.apiError 400 reason body) now =
    add_to_waitlist_race db db sub (BrevoRemote.apiError 400 reason body) now from rfl,
    h1]
  rw [hclass]

/-- Witness for C10 at concrete inputs. -/
theorem claim_C10_witness :
    (add_contact_to_list w1_sub.email w1_sub.name w1_sub.referral_source
        (get_waitlist_count [] + 1)
        (BrevoRemote.apiError 400 "Bad Request" "Contact already exist".data)).status =
      BrevoSyncStatus.success ∧
    (add_contact_to_list w1_sub.email w1_sub.name w1_sub.referral_source
        (get_waitlist_count [] + 1)
        (BrevoRemote.apiError 400 "Bad Request" "Contact already exist".data)).contact_id =
      none ∧
    ∃ entry : Entry,
      (add_to_waitlist [] w1_sub
          (BrevoRemote.apiError 400 "Bad Request" "Contact already exist".data) 4).1 =
        [] ++ [entry] ∧
      entry.brevo_sync_status = BrevoSyncStatus.success ∧
      entry.brevo_contact_id = none ∧
      entry.brevo_synced_at = some 4 :=
  claim_C10_already_exists_success_null_id [] w1_sub "Bad Request"
    "Contact already exist".data 4 (by decide) (by decide)

end Waitlist
